import Mathlib

/-!
Verification of the voice-analyser text analyzers.

Shallow embedding of the statistical and text-analysis functions of the
voice-analyser repository (statistics.ts, advanced-statistics.ts, zscore.ts,
function-words.ts, the anti-mechanical analyzer, vocabulary-tiers.ts,
punctuation.ts, paragraph-transitions.ts), together with theorems settling
the specification claims about them.

Modelling conventions:
* JavaScript numbers are modelled as rationals.
* Math.round is the JS rounding (half toward positive infinity).
* Math.sqrt is modelled by ratSqrt, a rational square root that is exact on
  perfect squares of rationals and non-negative everywhere; the theorems
  below rely only on those two facts.
* String.prototype.split on a regex of the form [c...]+ is modelled by
  splitRuns (split on maximal runs of the character class, keeping empty
  boundary pieces, exactly as the JS split does).
* A NaN produced by an unguarded 0/0 is modelled as Option.none.
-/

namespace VoiceAnalyser

/-! ## JS primitives -/

/-- JS Math.round: round half toward positive infinity. -/
def jsRound (q : ℚ) : ℤ := ⌊q + 1/2⌋

/-- Model of Math.sqrt on rationals: exact on perfect squares (numerator and
denominator both perfect squares), a non-negative rational approximation
otherwise.  The development relies only on exactness at perfect squares and
on non-negativity. -/
def ratSqrt (q : ℚ) : ℚ := (Nat.sqrt q.num.toNat : ℚ) / (Nat.sqrt q.den : ℚ)

/-- The JS whitespace class (ASCII part), as used by the \s regex class and
by String.prototype.trim. -/
def wsB (c : Char) : Bool :=
  c = ' ' || c = '\t' || c = '\n' || c = '\r' || c = '\x0B' || c = '\x0C'

/-- The JS word-character class \w, i.e. [A-Za-z0-9_]. -/
def isWordChar (c : Char) : Bool := c.isAlphanum || c = '_'

/-- The apostrophe character. -/
def apos : Char := Char.ofNat 39

/-- The apostrophe as a one-character string. -/
def aposStr : String := String.mk [apos]

/-- JS s.split(regex) where the regex is a character class with +: split on
maximal runs of characters satisfying p, keeping the (possibly empty) pieces
between runs.  Matches the JS behaviour including empty leading and trailing
pieces and the [empty] result on the empty string. -/
def splitRuns (p : Char → Bool) : List Char → List (List Char)
  | [] => [[]]
  | c :: cs =>
    if p c then
      match cs with
      | c2 :: _ => if p c2 then splitRuns p cs else [] :: splitRuns p cs
      | [] => [[], []]
    else
      match splitRuns p cs with
      | [] => [[c]]
      | piece :: more => (c :: piece) :: more

/-- String-level wrapper for splitRuns. -/
def jsSplitClass (p : Char → Bool) (s : String) : List String :=
  (splitRuns p s.data).map (fun cs => String.mk cs)

/-- Prepend a character to the first piece of a piece list. -/
def consHeadPiece (c : Char) : List (List Char) → List (List Char)
  | [] => [[c]]
  | piece :: more => (c :: piece) :: more

/-- State for the blank-line splitter, processed right to left: the pieces of
the current suffix with its leading newlines removed, and the number of those
leading newlines capped at 2 (0 = none, 1 = exactly one, 2 = two or more). -/
def paraFinalize : List (List Char) × ℕ → List (List Char)
  | (pieces, n) =>
    if n = 0 then pieces
    else if n = 1 then consHeadPiece '\n' pieces
    else [] :: pieces

/-- One right-to-left step of the blank-line splitter: a newline increments
the capped leading-newline count; any other character materializes the
pending newlines (one newline is ordinary text, two or more are a split
point) and joins the first piece. -/
def paraStep (c : Char) (st : List (List Char) × ℕ) : List (List Char) × ℕ :=
  if c = '\n' then (st.1, min (st.2 + 1) 2)
  else (consHeadPiece c (paraFinalize st), 0)

/-- JS text.split on a blank-line regex (newline newline+): split on maximal
runs of two or more newline characters; a single newline stays in the text. -/
def splitParasChars (l : List Char) : List (List Char) :=
  paraFinalize (l.foldr paraStep ([[]], 0))

/-- String-level wrapper for splitParasChars. -/
def jsSplitParas (s : String) : List String :=
  (splitParasChars s.data).map (fun cs => String.mk cs)

/-- JS String.prototype.trim (ASCII whitespace). -/
def trimStr (s : String) : String :=
  String.mk (((s.data.dropWhile wsB).reverse.dropWhile wsB).reverse)

/-- JS String.prototype.toLowerCase (ASCII). -/
def toLowerStr (s : String) : String := String.mk (s.data.map Char.toLower)

/-- Does the first list occur as the initial segment of the second? -/
def listStartsWithChars : List Char → List Char → Bool
  | [], _ => true
  | _ :: _, [] => false
  | a :: as, b :: bs => a = b && listStartsWithChars as bs

/-- Does the needle occur as a contiguous segment of the haystack?
Models JS String.prototype.includes. -/
def hasSubChars (needle : List Char) : List Char → Bool
  | [] => listStartsWithChars needle []
  | c :: rest => listStartsWithChars needle (c :: rest) || hasSubChars needle rest

/-- JS hay.includes(needle). -/
def strHasSub (needle hay : String) : Bool := hasSubChars needle.data hay.data

/-! ## statistics.ts -/

/-- statistics.ts mean: 0 on empty input, else sum divided by length. -/
def mean (values : List ℚ) : ℚ :=
  if values.length = 0 then 0 else values.sum / values.length

/-- statistics.ts standardDeviation: 0 on empty input, else the square root
of the mean of the squared deviations from the mean (population form,
divisor = length). -/
def standardDeviation (values : List ℚ) : ℚ :=
  if values.length = 0 then 0
  else
    let avg := mean values
    let squareDiffs := values.map (fun value => (value - avg) ^ 2)
    ratSqrt (mean squareDiffs)

/-- Follows the spec words, for the refinement comparison of claim C8:
the population standard deviation of a sequence is "the square root of the
mean of squared deviations from the mean". -/
def popStdDevSpec (values : List ℚ) : ℚ :=
  ratSqrt (mean (values.map (fun x => (x - mean values) ^ 2)))

/-- statistics.ts frequencyMap insertion step: JS Map.set(item, get(item)+1),
which keeps the insertion position of an existing key and appends a new key
at the end. -/
def fmInsert : List (String × ℕ) → String → List (String × ℕ)
  | [], k => [(k, 1)]
  | (k2, c) :: rest, k =>
    if k2 = k then (k, c + 1) :: rest else (k2, c) :: fmInsert rest k

/-- statistics.ts frequencyMap: insertion-ordered association list of counts. -/
def frequencyMap (items : List String) : List (String × ℕ) :=
  items.foldl fmInsert []

/-- Sum of the counts of a frequency-map entry list. -/
def sumCounts (entries : List (String × ℕ)) : ℕ :=
  (entries.map (fun e => e.2)).sum

/-- Stable descending insertion by count: an element passes over every
earlier element with a strictly greater count and stops before the first
element whose count is less than or equal to its own.  This is the stable
sort with comparator (a, b) => b.count - a.count used by the source. -/
def insertByCountDesc (x : String × ℕ) : List (String × ℕ) → List (String × ℕ)
  | [] => [x]
  | y :: ys => if x.2 < y.2 then y :: insertByCountDesc x ys else x :: y :: ys

/-- Stable sort by descending count (JS Array.prototype.sort with comparator
(a, b) => b.count - a.count, which is stable). -/
def sortByCountDesc (entries : List (String × ℕ)) : List (String × ℕ) :=
  entries.foldr insertByCountDesc []

/-- statistics.ts topN: sort the map entries by descending count, take the
first n, and attach the percentage of the total count (0 when the total is
0). -/
def topN (m : List (String × ℕ)) (n : ℕ) : List (String × ℕ × ℚ) :=
  let total := sumCounts m
  ((sortByCountDesc m).take n).map
    (fun e => (e.1, e.2, if 0 < total then (e.2 : ℚ) / (total : ℚ) * 100 else 0))

/-! ## advanced-statistics.ts -/

/-- advanced-statistics.ts burstiness: (stddev - mean) / (stddev + mean),
with 0 for sequences shorter than 2 and 0 when stddev + mean = 0. -/
def burstiness (values : List ℚ) : ℚ :=
  if values.length < 2 then 0
  else
    let avg := mean values
    let stdDev := standardDeviation values
    if stdDev + avg = 0 then 0
    else (stdDev - avg) / (stdDev + avg)

/-! ## zscore.ts and the function-words.ts summary bands -/

/-- zscore.ts zScore: (value - refMean) / refStdDev, and 0 when
refStdDev = 0 (division-by-zero guard). -/
def zScore (value refMean refStdDev : ℚ) : ℚ :=
  if refStdDev = 0 then 0 else (value - refMean) / refStdDev

/-- The five z-score bands of the summary statistics in
function-words.ts analyzeFunctionWords. -/
inductive ZBand where
  | highlyDistinctive
  | distinctive
  | normal
  | avoided
  | highlyAvoided
deriving DecidableEq

/-- function-words.ts analyzeFunctionWords summary branch: z > 2 highly
distinctive, z > 1 distinctive, z > -1 normal, z > -2 avoided, else
highly avoided. -/
def summaryBand (z : ℚ) : ZBand :=
  if z > 2 then .highlyDistinctive
  else if z > 1 then .distinctive
  else if z > -1 then .normal
  else if z > -2 then .avoided
  else .highlyAvoided

/-! ## punctuation.ts calculateConfidence -/

/-- Confidence labels of punctuation.ts calculateConfidence. -/
inductive ConfLabel where
  | high
  | medium
  | low
deriving DecidableEq

/-- punctuation.ts calculateConfidence: low with score 0 when there are no
matches, else the label from the strong-to-total ratio (at least 0.7 high,
at least 0.4 medium, else low) with the ratio as score.  The weakMatches
argument is accepted but unused, as in the source. -/
def calculateConfidence (strongMatches weakMatches totalMatches : ℕ) :
    ConfLabel × ℚ :=
  if totalMatches = 0 then (.low, 0)
  else
    let strongRatio : ℚ := (strongMatches : ℚ) / (totalMatches : ℚ)
    if strongRatio ≥ 7/10 then (.high, strongRatio)
    else if strongRatio ≥ 4/10 then (.medium, strongRatio)
    else (.low, strongRatio)

/-! ## paragraph-transitions.ts classifyParagraph -/

/-- Paragraph categories of paragraph-transitions.ts.  The source calls the
third category example, which is a Lean keyword, hence exampleKind. -/
inductive ParaType where
  | technical
  | personal
  | exampleKind
  | warning
  | explanation
deriving DecidableEq

/-- Technical markers of classifyParagraph. -/
def technicalMarkers : List String :=
  ["specifications", "performance", "features", "technical", "model", "version"]

/-- Personal markers of classifyParagraph; the first is the contraction of
i have, written with an apostrophe in the source. -/
def personalMarkers : List String :=
  ["i" ++ aposStr ++ "ve", "my", "i tested", "in my experience", "i found"]

/-- Warning markers of classifyParagraph. -/
def warningMarkers : List String :=
  ["before", "caveat", "warning", "watch out", "be careful", "avoid"]

/-- Example markers of classifyParagraph. -/
def exampleMarkers : List String :=
  ["for example", "for instance", "consider", "imagine", "say you"]

/-- The unit names of the measurement regex of classifyParagraph. -/
def unitNames : List String := ["nm", "kg", "mm", "watts", "hz", "fps"]

/-- Does a measurement match (digits, optional whitespace, then a unit name)
start at this position?  Models the regex digit+ ws* (nm|kg|mm|watts|hz|fps)
anchored at a position; the character classes are disjoint, so the greedy
match is the only one. -/
def measureAt : List Char → Bool
  | [] => false
  | c :: rest =>
    c.isDigit &&
      unitNames.any (fun u =>
        listStartsWithChars u.data ((rest.dropWhile Char.isDigit).dropWhile wsB))

/-- Does a measurement match occur anywhere in the text?  The source tests
the case-insensitive regex against the raw paragraph; this is applied to the
lowercased paragraph, which is equivalent because the unit names are
lowercase and digits and whitespace are unchanged by lowercasing. -/
def hasMeasure : List Char → Bool
  | [] => false
  | c :: rest => measureAt (c :: rest) || hasMeasure rest

/-- classifyParagraph technical test: a technical marker occurs in the
lowercased paragraph, or a measurement occurs. -/
def hasTechnicalP (para : String) : Bool :=
  let lower := toLowerStr para
  technicalMarkers.any (fun m => strHasSub m lower) || hasMeasure lower.data

/-- classifyParagraph personal test. -/
def hasPersonalP (para : String) : Bool :=
  personalMarkers.any (fun m => strHasSub m (toLowerStr para))

/-- classifyParagraph warning test. -/
def hasWarningP (para : String) : Bool :=
  warningMarkers.any (fun m => strHasSub m (toLowerStr para))

/-- classifyParagraph example test. -/
def hasExampleP (para : String) : Bool :=
  exampleMarkers.any (fun m => strHasSub m (toLowerStr para))

/-- paragraph-transitions.ts classifyParagraph: first-match-wins priority
warning, personal, example, technical, with explanation as the default. -/
def classifyParagraph (para : String) : ParaType :=
  if hasWarningP para then .warning
  else if hasPersonalP para then .personal
  else if hasExampleP para then .exampleKind
  else if hasTechnicalP para then .technical
  else .explanation

/-! ## The anti-mechanical analyzer -/

/-- Anti-mechanical analyzer calculateMean: same formula as statistics.ts
mean, duplicated in the source file. -/
def calculateMean (values : List ℚ) : ℚ :=
  if values.length = 0 then 0 else values.sum / values.length

/-- Anti-mechanical analyzer calculateStdDev: same population formula as
statistics.ts standardDeviation, duplicated in the source file. -/
def calculateStdDev (values : List ℚ) : ℚ :=
  if values.length = 0 then 0
  else
    let m := values.sum / values.length
    let squaredDiffs := values.map (fun v => (v - m) ^ 2)
    ratSqrt (squaredDiffs.sum / values.length)

/-- Anti-mechanical analyzer getFirstWord: the regex takes an optional
leading double or single quote and then the longest nonempty run of word
characters, lowercased; the empty string when there is no match. -/
def getFirstWord (sentence : String) : String :=
  let trimmed := (trimStr sentence).data
  let afterQuote :=
    match trimmed with
    | c :: rest => if c = '"' || c = apos then rest else trimmed
    | [] => []
  String.mk ((afterQuote.takeWhile isWordChar).map Char.toLower)

/-- The sentence-terminator class [.!?] of the analyzer. -/
def sentenceSepB (c : Char) : Bool := c = '.' || c = '!' || c = '?'

/-- Anti-mechanical analyzer sentence splitting: split on runs of sentence
terminators, trim, drop empties. -/
def splitSentences (text : String) : List String :=
  ((jsSplitClass sentenceSepB text).map trimStr).filter (fun s => 0 < s.length)

/-- Anti-mechanical analyzer paragraph splitting: split on blank lines,
trim, drop empties. -/
def splitParagraphs (text : String) : List String :=
  ((jsSplitParas text).map trimStr).filter (fun s => 0 < s.length)

/-- Per-sentence word count: JS sentence.split(whitespace+).length. -/
def jsWordCount (s : String) : ℕ := (jsSplitClass wsB s).length

/-- Sentence count of a paragraph: split on sentence terminators and count
the pieces that are nonempty after trimming. -/
def paragraphSentenceCount (p : String) : ℕ :=
  ((jsSplitClass sentenceSepB p).filter (fun s => 0 < (trimStr s).length)).length

/-- One step of the maximum-consecutive-I-starts scan: state is the maximum
so far and the current run length. -/
def consecIStep : ℕ × ℕ → String → ℕ × ℕ
  | (m, cur), s =>
    if getFirstWord s = "i" then (max m (cur + 1), cur + 1) else (m, 0)

/-- Longest run of consecutive sentences whose first word is i. -/
def maxConsecI (sentences : List String) : ℕ :=
  (sentences.foldl consecIStep (0, 0)).1

/-- One step of the repeated-sentence-start scan: state is the maximum run
recorded so far, the current run length, and the word opening the current
run; an empty current word never extends a run, as in the source. -/
def repStep : ℕ × ℕ × String → String → ℕ × ℕ × String
  | (m, cur, w), fw =>
    if fw = w && 0 < w.length then (m, cur + 1, w) else (max m cur, 1, fw)

/-- Anti-mechanical analyzer maxConsecutiveSameStart: the scan starts at the
second first-word with run length 1 seeded by the first first-word, and the
final run is folded in at the end (yielding 1 even for an empty list, as the
JS loop does). -/
def maxConsecSame (firstWords : List String) : ℕ :=
  let st := firstWords.tail.foldl repStep (0, 1, firstWords.headD "")
  max st.1 st.2.1

/-- The four interpretation bands of the naturalness total score. -/
inductive NaturalnessKind where
  | mechanical
  | somewhatMechanical
  | natural
  | veryNatural
deriving DecidableEq

/-- The naturalness record returned by the anti-mechanical analyzer: the four
rounded sub-scores, the total (the JS round of the sum of the unrounded
sub-scores), and the interpretation band. -/
structure Naturalness where
  sentenceVariationScore : ℤ
  paragraphVariationScore : ℤ
  firstPersonScore : ℤ
  repetitionScore : ℤ
  totalScore : ℤ
  interpretation : NaturalnessKind
deriving DecidableEq

/-- The score computation of analyzeAntiMechanical as a function of the
intermediate data the source derives from the text: the per-sentence word
counts, the per-paragraph sentence counts, the number of sentences starting
with the word i, the number of sentences, and the two maximum-run statistics. -/
def naturalnessScores (sentenceLengths paragraphSentenceCounts : List ℕ)
    (sentenceStartFirstPerson sentencesLen maxConsecutiveI maxConsecutiveSame : ℕ) :
    Naturalness :=
  let meanLength := calculateMean (sentenceLengths.map (fun n => (n : ℚ)))
  let stdDevLength := calculateStdDev (sentenceLengths.map (fun n => (n : ℚ)))
  let cv := if 0 < meanLength then stdDevLength / meanLength else 0
  let distShort := (sentenceLengths.filter (fun l => 1 ≤ l && l ≤ 8)).length
  let distMedium := (sentenceLengths.filter (fun l => 9 ≤ l && l ≤ 20)).length
  let distLong := (sentenceLengths.filter (fun l => 21 ≤ l && l ≤ 40)).length
  let distVeryLong := (sentenceLengths.filter (fun l => 40 < l)).length
  let meanParagraphSentences :=
    calculateMean (paragraphSentenceCounts.map (fun n => (n : ℚ)))
  let stdDevParagraph :=
    calculateStdDev (paragraphSentenceCounts.map (fun n => (n : ℚ)))
  let symmetryScore :=
    if 0 < meanParagraphSentences then stdDevParagraph / meanParagraphSentences
    else 0
  let singleSentenceParagraphs :=
    (paragraphSentenceCounts.filter (fun c => c = 1)).length
  let longParagraphs := (paragraphSentenceCounts.filter (fun c => 5 ≤ c)).length
  let startFrac : ℚ :=
    if 0 < sentencesLen then (sentenceStartFirstPerson : ℚ) / (sentencesLen : ℚ)
    else 0
  -- sentence variation score: min(25, cv * 31.25), then the band bonus
  -- (categoriesPresent - 2) * 2.5, capped at 25 again
  let svs0 : ℚ := min 25 (cv * (125/4))
  let categoriesPresent : ℕ :=
    (([distShort, distMedium, distLong, distVeryLong].filter
      (fun n => decide (0 < n))).length)
  let sentenceVariationScoreQ :=
    min 25 (svs0 + ((categoriesPresent : ℚ) - 2) * (5/2))
  -- paragraph variation score
  let pvs1 : ℚ := if 0 < singleSentenceParagraphs then 8 else 0
  let pvs2 := pvs1 + (if 0 < longParagraphs then 8 else 0)
  let paragraphVariationScoreQ := pvs2 + min 9 (symmetryScore * 15)
  -- first-person score
  let fps1 : ℚ := 25
  let fps2 :=
    if startFrac > 1/2 then fps1 - 15
    else if startFrac > 3/10 then fps1 - 8
    else fps1
  let fps3 :=
    if 4 ≤ maxConsecutiveI then fps2 - 10
    else if 3 ≤ maxConsecutiveI then fps2 - 5
    else fps2
  let firstPersonScoreQ := max 0 fps3
  -- repetition score
  let rps1 : ℚ := 25
  let rps2 :=
    if 5 ≤ maxConsecutiveSame then rps1 - 20
    else if 4 ≤ maxConsecutiveSame then rps1 - 12
    else if 3 ≤ maxConsecutiveSame then rps1 - 6
    else rps1
  let repetitionScoreQ := max 0 rps2
  let totalScoreZ :=
    jsRound (sentenceVariationScoreQ + paragraphVariationScoreQ +
      firstPersonScoreQ + repetitionScoreQ)
  let interp :=
    if 85 ≤ totalScoreZ then NaturalnessKind.veryNatural
    else if 65 ≤ totalScoreZ then NaturalnessKind.natural
    else if 45 ≤ totalScoreZ then NaturalnessKind.somewhatMechanical
    else NaturalnessKind.mechanical
  { sentenceVariationScore := jsRound sentenceVariationScoreQ
    paragraphVariationScore := jsRound paragraphVariationScoreQ
    firstPersonScore := jsRound firstPersonScoreQ
    repetitionScore := jsRound repetitionScoreQ
    totalScore := totalScoreZ
    interpretation := interp }

/-- analyzeAntiMechanical, naturalness part: split the text into sentences
and paragraphs, derive the intermediate statistics exactly as the source
does, and compute the naturalness scores.  The fields of the returned
analysis that feed no score (the raw first-person regex count and the
problematic-patterns list) are not modelled. -/
def analyzeAntiMechanical (text : String) : Naturalness :=
  let sentences := splitSentences text
  let paragraphs := splitParagraphs text
  naturalnessScores
    (sentences.map jsWordCount)
    (paragraphs.map paragraphSentenceCount)
    ((sentences.filter (fun s => getFirstWord s = "i")).length)
    sentences.length
    (maxConsecI sentences)
    (maxConsecSame (sentences.map getFirstWord))

/-! ## vocabulary-tiers.ts -/

/-- The formal verbs of vocabulary-tiers.ts. -/
def FORMAL_VERBS : List String :=
  ["achieve", "acquire", "demonstrate", "facilitate", "implement",
   "utilize", "obtain", "commence", "conclude", "determine",
   "establish", "examine", "indicate", "investigate", "maintain",
   "perform", "proceed", "provide", "require", "select",
   "subsequent", "sufficient", "undertake", "employ", "enable"]

/-- The formal adjectives of vocabulary-tiers.ts. -/
def FORMAL_ADJECTIVES : List String :=
  ["optimal", "comprehensive", "significant", "substantial", "considerable",
   "extensive", "numerous", "various", "particular", "specific",
   "appropriate", "adequate", "sufficient", "relevant", "potential"]

/-- The formal adverbs of vocabulary-tiers.ts. -/
def FORMAL_ADVERBS : List String :=
  ["subsequently", "accordingly", "consequently", "furthermore",
   "moreover", "nevertheless", "nonetheless", "additionally",
   "alternatively", "evidently", "presumably", "potentially"]

/-- The AI-slop words of vocabulary-tiers.ts. -/
def AI_SLOP : List String :=
  ["delve", "leverage", "unlock", "seamless", "robust",
   "cutting-edge", "game-changer", "revolutionize", "groundbreaking",
   "transform", "elevate", "empower", "synergy", "paradigm",
   "holistic", "dynamic", "innovative", "strategic", "optimize"]

/-- The word list of analyzeVocabularyTiers:
text.toLowerCase().split(non-word-characters+) with empties dropped. -/
def vocabWords (text : String) : List String :=
  (jsSplitClass (fun c => !(isWordChar c)) (toLowerStr text)).filter
    (fun w => 0 < w.length)

/-- Count of a base word together with its s, ed and ing inflections
(used for verbs and slop words). -/
def countInflected (words : List String) (w : String) : ℕ :=
  (words.filter (fun x =>
    x = w || x = w ++ "s" || x = w ++ "ed" || x = w ++ "ing")).length

/-- Count of exact occurrences of a word (used for adjectives and adverbs). -/
def countExact (words : List String) (w : String) : ℕ :=
  (words.filter (fun x => x = w)).length

/-- The entries of one tier: each listed word paired with its count, words
with count 0 omitted, in list order (the push order of the source). -/
def tierEntries (words : List String) (lst : List String)
    (cnt : List String → String → ℕ) : List (String × ℕ) :=
  lst.filterMap (fun w => let c := cnt words w; if 0 < c then some (w, c) else none)

/-- The analysis record of analyzeVocabularyTiers, restricted to the fields
the claims are about: the per-tier word/count entries (sorted by descending
count, as the source returns them), the total formal-word count, and the
formality score.  The score is Math.round((totalFormalWords/totalWords)*1000);
when the text has no words this is Math.round(0/0 * 1000) = NaN, modelled as
none.  The suggested-alternatives and recommendations strings are not
modelled. -/
structure VocabularyTierAnalysis where
  formalVerbs : List (String × ℕ)
  formalAdjectives : List (String × ℕ)
  formalAdverbs : List (String × ℕ)
  aiSlop : List (String × ℕ)
  totalFormalWords : ℕ
  formalityScore : Option ℤ
deriving DecidableEq

/-- vocabulary-tiers.ts analyzeVocabularyTiers. -/
def analyzeVocabularyTiers (text : String) : VocabularyTierAnalysis :=
  let words := vocabWords text
  let formalVerbs := tierEntries words FORMAL_VERBS countInflected
  let formalAdjectives := tierEntries words FORMAL_ADJECTIVES countExact
  let formalAdverbs := tierEntries words FORMAL_ADVERBS countExact
  let aiSlop := tierEntries words AI_SLOP countInflected
  let totalFormalWords :=
    sumCounts formalVerbs + sumCounts formalAdjectives + sumCounts formalAdverbs
  let totalWords := words.length
  let formalityScore : Option ℤ :=
    if totalWords = 0 then none
    else some (jsRound (((totalFormalWords : ℚ) / (totalWords : ℚ)) * 1000))
  { formalVerbs := sortByCountDesc formalVerbs
    formalAdjectives := sortByCountDesc formalAdjectives
    formalAdverbs := sortByCountDesc formalAdverbs
    aiSlop := sortByCountDesc aiSlop
    totalFormalWords := totalFormalWords
    formalityScore := formalityScore }

/-! ## Helper lemmas -/

theorem ratSqrt_nonneg (q : ℚ) : 0 ≤ ratSqrt q := by
  unfold ratSqrt
  exact div_nonneg (Nat.cast_nonneg _) (Nat.cast_nonneg _)

theorem standardDeviation_nonneg (values : List ℚ) :
    0 ≤ standardDeviation values := by
  unfold standardDeviation
  split
  · exact le_refl 0
  · exact ratSqrt_nonneg _

theorem mean_nonneg (values : List ℚ) (h : ∀ x ∈ values, 0 ≤ x) :
    0 ≤ mean values := by
  unfold mean
  split
  · exact le_refl 0
  · exact div_nonneg (List.sum_nonneg h) (Nat.cast_nonneg _)

theorem sumCounts_cons (a : String × ℕ) (l : List (String × ℕ)) :
    sumCounts (a :: l) = a.2 + sumCounts l := by
  simp [sumCounts]

theorem sumCounts_fmInsert (l : List (String × ℕ)) (k : String) :
    sumCounts (fmInsert l k) = sumCounts l + 1 := by
  induction l with
  | nil => simp [fmInsert, sumCounts]
  | cons hd tl ih =>
    obtain ⟨k2, c⟩ := hd
    unfold fmInsert
    by_cases h : k2 = k
    · rw [if_pos h, sumCounts_cons, sumCounts_cons]
      omega
    · rw [if_neg h, sumCounts_cons, sumCounts_cons, ih]
      omega

theorem sumCounts_foldl_fmInsert (items : List String)
    (acc : List (String × ℕ)) :
    sumCounts (items.foldl fmInsert acc) = sumCounts acc + items.length := by
  induction items generalizing acc with
  | nil => simp
  | cons hd tl ih =>
    simp only [List.foldl_cons, List.length_cons]
    rw [ih, sumCounts_fmInsert]
    omega

theorem sumCounts_frequencyMap (tokens : List String) :
    sumCounts (frequencyMap tokens) = tokens.length := by
  unfold frequencyMap
  rw [sumCounts_foldl_fmInsert]
  simp [sumCounts]

theorem mem_insertByCountDesc {z x : String × ℕ} {l : List (String × ℕ)} :
    z ∈ insertByCountDesc x l ↔ z = x ∨ z ∈ l := by
  induction l with
  | nil => simp [insertByCountDesc]
  | cons y ys ih =>
    unfold insertByCountDesc
    by_cases hxy : x.2 < y.2
    · rw [if_pos hxy]
      simp only [List.mem_cons, ih]
      tauto
    · rw [if_neg hxy]
      simp only [List.mem_cons]

theorem pairwise_insertByCountDesc (x : String × ℕ) (l : List (String × ℕ))
    (h : l.Pairwise (fun a b => b.2 ≤ a.2)) :
    (insertByCountDesc x l).Pairwise (fun a b => b.2 ≤ a.2) := by
  induction l with
  | nil => simp [insertByCountDesc]
  | cons y ys ih =>
    unfold insertByCountDesc
    rcases List.pairwise_cons.mp h with ⟨hy, hys⟩
    by_cases hxy : x.2 < y.2
    · rw [if_pos hxy]
      refine List.pairwise_cons.mpr ⟨?_, ih hys⟩
      intro z hz
      rcases mem_insertByCountDesc.mp hz with hzx | hzys
      · rw [hzx]
        exact le_of_lt hxy
      · exact hy z hzys
    · rw [if_neg hxy]
      refine List.pairwise_cons.mpr ⟨?_, h⟩
      intro z hz
      rcases List.mem_cons.mp hz with hzy | hzys
      · rw [hzy]
        exact not_lt.mp hxy
      · exact le_trans (hy z hzys) (not_lt.mp hxy)

theorem pairwise_sortByCountDesc (l : List (String × ℕ)) :
    (sortByCountDesc l).Pairwise (fun a b => b.2 ≤ a.2) := by
  unfold sortByCountDesc
  induction l with
  | nil => simp
  | cons x xs ih =>
    simp only [List.foldr_cons]
    exact pairwise_insertByCountDesc x _ ih

/-! ## Claim theorems -/

/-- C3 (amended): for every non-empty sequence of non-negative rationals the
burstiness coefficient lies between -1 and 1, and the uniform sequence
[5, 5, 5, 5] has burstiness exactly -1.  (As stated over all numeric
sequences the claim fails; see the counterexample.) -/
theorem burstiness_bounds :
    (∀ v : List ℚ, v ≠ [] → (∀ x ∈ v, 0 ≤ x) →
      -1 ≤ burstiness v ∧ burstiness v ≤ 1) ∧
    burstiness [5, 5, 5, 5] = -1 := by
  constructor
  · intro v hne hnn
    by_cases hlen : v.length < 2
    · unfold burstiness
      rw [if_pos hlen]
      norm_num
    · have hμ : 0 ≤ mean v := mean_nonneg v hnn
      have hσ : 0 ≤ standardDeviation v := standardDeviation_nonneg v
      unfold burstiness
      rw [if_neg hlen]
      dsimp only
      by_cases hz : standardDeviation v + mean v = 0
      · rw [if_pos hz]
        norm_num
      · rw [if_neg hz]
        have hpos : 0 < standardDeviation v + mean v :=
          lt_of_le_of_ne (add_nonneg hσ hμ) (Ne.symm hz)
        constructor
        · rw [le_div_iff₀ hpos]
          linarith
        · rw [div_le_one hpos]
          linarith
  · norm_num [burstiness, standardDeviation, mean, ratSqrt]

/-- C3 witness: the bound applied to the concrete non-negative sequence
[2, 4]. -/
theorem burstiness_bounds_witness :
    -1 ≤ burstiness [2, 4] ∧ burstiness [2, 4] ≤ 1 :=
  burstiness_bounds.1 [2, 4] (by simp) (by norm_num)

/-- C3 counterexample: the claim as stated quantifies over every non-empty
numeric sequence, but a sequence with negative entries escapes the bound:
burstiness of [-1, -3] is -3 (mean -2, standard deviation 1). -/
theorem burstiness_not_bounded_below :
    burstiness [-1, -3] = -3 ∧ burstiness [-1, -3] < -1 := by
  constructor <;> norm_num [burstiness, standardDeviation, mean, ratSqrt]

/-- C10: burstiness of any sequence with fewer than two elements is 0; the
formula is never applied to such sequences. -/
theorem burstiness_short (v : List ℚ) (h : v.length < 2) : burstiness v = 0 := by
  unfold burstiness
  rw [if_pos h]

/-- C10 witness: a singleton sequence. -/
theorem burstiness_short_witness : burstiness [7] = 0 :=
  burstiness_short [7] (by simp)

/-- C8: the standard deviation is non-negative for every sequence, is 0 on
the empty sequence, and agrees everywhere with the spec formulation of the
population standard deviation (square root of the mean of squared deviations
from the mean); on [0, 2] the mean squared deviation is 1 = 2/2, the
population divisor, not 2 = 2/1, the sample divisor. -/
theorem standardDeviation_spec :
    (∀ v : List ℚ, 0 ≤ standardDeviation v) ∧
    standardDeviation ([] : List ℚ) = 0 ∧
    (∀ v : List ℚ, standardDeviation v = popStdDevSpec v) ∧
    mean (([0, 2] : List ℚ).map (fun x => (x - mean [0, 2]) ^ 2)) = 1 := by
  refine ⟨standardDeviation_nonneg, by norm_num [standardDeviation], ?_,
    by norm_num [mean]⟩
  intro v
  unfold standardDeviation popStdDevSpec
  rcases v with _ | ⟨a, t⟩
  · norm_num [mean, ratSqrt]
  · simp

/-- C7: a zero reference standard deviation makes the z-score 0 for every
value and mean (the guard prevents division by zero), and the summary
classification of that z-score is the normal band. -/
theorem zScore_zero_stddev :
    ∀ x m : ℚ, zScore x m 0 = 0 ∧ summaryBand (zScore x m 0) = ZBand.normal := by
  intro x m
  have h : zScore x m 0 = 0 := by
    unfold zScore
    simp
  refine ⟨h, ?_⟩
  rw [h]
  unfold summaryBand
  norm_num

/-- C4: with a positive reference standard deviation, a frequency of exactly
the reference mean plus 2.01 standard deviations lands in the
highly-distinctive band (z = 2.01 > 2), and exactly 1.99 standard deviations
lands in the distinctive band (1 < z = 1.99 <= 2). -/
theorem summaryBand_boundary :
    ∀ m s : ℚ, 0 < s →
      summaryBand (zScore (m + (201/100) * s) m s) = ZBand.highlyDistinctive ∧
      summaryBand (zScore (m + (199/100) * s) m s) = ZBand.distinctive := by
  intro m s hs
  have hz1 : zScore (m + (201/100) * s) m s = 201/100 := by
    unfold zScore
    rw [if_neg (ne_of_gt hs), add_sub_cancel_left, mul_div_assoc,
      div_self (ne_of_gt hs), mul_one]
  have hz2 : zScore (m + (199/100) * s) m s = 199/100 := by
    unfold zScore
    rw [if_neg (ne_of_gt hs), add_sub_cancel_left, mul_div_assoc,
      div_self (ne_of_gt hs), mul_one]
  rw [hz1, hz2]
  unfold summaryBand
  norm_num

/-- C4 witness: reference mean 0 and standard deviation 1. -/
theorem summaryBand_boundary_witness :
    summaryBand (zScore ((0 : ℚ) + (201/100) * 1) 0 1) = ZBand.highlyDistinctive ∧
    summaryBand (zScore ((0 : ℚ) + (199/100) * 1) 0 1) = ZBand.distinctive :=
  summaryBand_boundary 0 1 (by norm_num)

/-- C5: the confidence label is high exactly when there are matches and the
strong-to-total ratio is at least 0.7, medium exactly when the ratio is at
least 0.4 and below 0.7, low exactly when there are no matches or the ratio
is below 0.4, and no matches forces the label low with score 0. -/
theorem calculateConfidence_spec :
    ∀ s w t : ℕ,
      ((calculateConfidence s w t).1 = ConfLabel.high ↔
        t ≠ 0 ∧ (7/10 : ℚ) ≤ (s : ℚ) / (t : ℚ)) ∧
      ((calculateConfidence s w t).1 = ConfLabel.medium ↔
        t ≠ 0 ∧ (4/10 : ℚ) ≤ (s : ℚ) / (t : ℚ) ∧ (s : ℚ) / (t : ℚ) < 7/10) ∧
      ((calculateConfidence s w t).1 = ConfLabel.low ↔
        t = 0 ∨ (s : ℚ) / (t : ℚ) < 4/10) ∧
      (t = 0 → calculateConfidence s w t = (ConfLabel.low, 0)) := by
  intro s w t
  unfold calculateConfidence
  by_cases ht : t = 0
  · rw [if_pos ht]
    simp [ht]
  · rw [if_neg ht]
    dsimp only
    by_cases h7 : (s : ℚ) / (t : ℚ) ≥ 7/10
    · rw [if_pos h7]
      refine ⟨?_, ?_, ?_, ?_⟩
      · exact ⟨fun _ => ⟨ht, h7⟩, fun _ => rfl⟩
      · constructor
        · intro h
          simp at h
        · rintro ⟨-, -, hlt⟩
          linarith
      · constructor
        · intro h
          simp at h
        · rintro (h | h)
          · exact absurd h ht
          · linarith
      · intro h
        exact absurd h ht
    · rw [if_neg h7]
      by_cases h4 : (s : ℚ) / (t : ℚ) ≥ 4/10
      · rw [if_pos h4]
        refine ⟨?_, ?_, ?_, ?_⟩
        · constructor
          · intro h
            simp at h
          · rintro ⟨-, hge⟩
            exact absurd hge h7
        · exact ⟨fun _ => ⟨ht, h4, not_le.mp h7⟩, fun _ => rfl⟩
        · constructor
          · intro h
            simp at h
          · rintro (h | h)
            · exact absurd h ht
            · linarith
        · intro h
          exact absurd h ht
      · rw [if_neg h4]
        refine ⟨?_, ?_, ?_, ?_⟩
        · constructor
          · intro h
            simp at h
          · rintro ⟨-, hge⟩
            exact absurd hge (by intro hc; exact h4 (by linarith))
        · constructor
          · intro h
            simp at h
          · rintro ⟨-, hge, -⟩
            exact absurd hge h4
        · exact ⟨fun _ => Or.inr (not_le.mp h4), fun _ => rfl⟩
        · intro h
          exact absurd h ht

/-- C5 witness: no matches gives low with score 0, and 7 strong out of 10
total gives high. -/
theorem calculateConfidence_spec_witness :
    calculateConfidence 0 5 0 = (ConfLabel.low, 0) ∧
    (calculateConfidence 7 1 10).1 = ConfLabel.high :=
  ⟨(calculateConfidence_spec 0 5 0).2.2.2 rfl,
    ((calculateConfidence_spec 7 1 10).1).mpr ⟨by norm_num, by norm_num⟩⟩

/-- C6: paragraph classification is first-match-wins under the fixed
priority warning, personal, example, technical, and is explanation exactly
when no marker of any category matches. -/
theorem classifyParagraph_priority :
    ∀ p : String,
      (hasWarningP p = true → classifyParagraph p = ParaType.warning) ∧
      (hasWarningP p = false → hasPersonalP p = true →
        classifyParagraph p = ParaType.personal) ∧
      (hasWarningP p = false → hasPersonalP p = false → hasExampleP p = true →
        classifyParagraph p = ParaType.exampleKind) ∧
      (hasWarningP p = false → hasPersonalP p = false → hasExampleP p = false →
        hasTechnicalP p = true → classifyParagraph p = ParaType.technical) ∧
      (classifyParagraph p = ParaType.explanation ↔
        hasWarningP p = false ∧ hasPersonalP p = false ∧
        hasExampleP p = false ∧ hasTechnicalP p = false) := by
  intro p
  unfold classifyParagraph
  cases hw : hasWarningP p <;> cases hp : hasPersonalP p <;>
    cases he : hasExampleP p <;> cases ht : hasTechnicalP p <;> simp

/-- C6 witness: a paragraph containing both a warning marker and a personal
marker is classified warning. -/
theorem classifyParagraph_priority_witness :
    classifyParagraph "warning my kit" = ParaType.warning :=
  (classifyParagraph_priority "warning my kit").1 (by decide)

/-- C9: topN of a frequency map returns at most n entries, in non-increasing
count order, and the counts of the full frequency map sum to the number of
tokens. -/
theorem topN_frequencyMap_spec :
    ∀ (tokens : List String) (n : ℕ),
      (topN (frequencyMap tokens) n).length ≤ n ∧
      (topN (frequencyMap tokens) n).Pairwise (fun a b => b.2.1 ≤ a.2.1) ∧
      sumCounts (frequencyMap tokens) = tokens.length := by
  intro tokens n
  refine ⟨?_, ?_, sumCounts_frequencyMap tokens⟩
  · unfold topN
    rw [List.length_map]
    exact List.length_take_le n _
  · unfold topN
    dsimp only
    refine List.Pairwise.map _ ?_
      ((pairwise_sortByCountDesc (frequencyMap tokens)).sublist
        (List.take_sublist n _))
    intro a b hab
    exact hab

/-- C2 (code bug): on whitespace-only input the word list is empty, so the
formality score is Math.round((0/0)*1000) = NaN (modelled as none), not the
0 the spec promises; the total formal-word count is 0. -/
theorem vocabularyTiers_empty_nan :
    (analyzeVocabularyTiers " ").formalityScore = none ∧
    (analyzeVocabularyTiers " ").totalFormalWords = 0 := by
  constructor <;> decide

/-- C1 (code bug): for the single-sentence text "Hello world." the sentence
variation score is -2, outside the 0..25 range the claim (and the interface comments
of the source) promise: the coefficient of variation is 0 and only
one of the four length bands is populated, so the band bonus
(categoriesPresent - 2) * 2.5 = -2.5 drives the score below zero, and
Math.round(-2.5) = -2. -/
theorem antiMechanical_negative_subscore :
    (analyzeAntiMechanical "Hello world.").sentenceVariationScore = -2 ∧
    (analyzeAntiMechanical "Hello world.").sentenceVariationScore < 0 := by
  have heq : analyzeAntiMechanical "Hello world." =
      naturalnessScores [2] [1] 0 1 0 1 := by
    simp only [analyzeAntiMechanical]
    congr 1
  have hval : (naturalnessScores [2] [1] 0 1 0 1).sentenceVariationScore = -2 := by
    norm_num [naturalnessScores, calculateMean, calculateStdDev, ratSqrt, jsRound]
  constructor
  · rw [heq]
    exact hval
  · rw [heq, hval]
    norm_num

end VoiceAnalyser
